import Mathlib

/-!
Verification of the SecureHR frontend (React/TypeScript).

Shallow embedding of the components and API surface:
numbers that JavaScript holds as doubles are modelled as rationals,
TypeScript optional fields as Option, and the React handlers as pure
state-transition functions that also report the API call they issue,
if any, as an Option value.
-/

namespace SecureHR

/-- User roles, from the union type in src/frontend/src/types/index.ts. -/
inductive Role where
  | candidate
  | recruiter
deriving DecidableEq, Repr

/-- AuthResponse, from src/frontend/src/types/index.ts. -/
structure AuthResponse where
  access_token : String
  token_type : String
  expires_in : Int
  user_id : String
  user_role : Role
deriving DecidableEq, Repr

/-- User, from src/frontend/src/types/index.ts. -/
structure User where
  id : String
  email : String
  role : Role
  created_at : String
  last_login_at : Option String
  is_active : Bool
deriving DecidableEq, Repr

/-- SearchResult, from src/frontend/src/types/index.ts: the shape of one
hit in the ranked list returned by the search endpoint. -/
structure SearchResult where
  candidate_id : String
  similarity_score : ℚ
  first_name : Option String := none
  last_name : Option String := none
  email : Option String := none
  matched_skills : Option (List String) := none
  experience_level : Option String := none
deriving DecidableEq, Repr

/-- The full tuple of fields of a SearchResult. Its injectivity expresses
that a SearchResult carries these fields and nothing else (in particular
no raw CV text). -/
def searchResultFields (r : SearchResult) :
    String × ℚ × Option String × Option String × Option String ×
      Option (List String) × Option String :=
  (r.candidate_id, r.similarity_score, r.first_name, r.last_name, r.email,
    r.matched_skills, r.experience_level)

/-- The literal values admitted by the cv_processing_status field of the
Candidate type in src/frontend/src/types/index.ts, whose declared union
covers pending, completed and failed only. -/
def candidateStatusValues : List String := ["pending", "completed", "failed"]

/-- JavaScript String.prototype.trim: drop whitespace from both ends. -/
def jsTrim (s : String) : String :=
  ⟨((s.data.dropWhile Char.isWhitespace).reverse.dropWhile
      Char.isWhitespace).reverse⟩

/-- Lexicographic strict comparison of character lists by character code,
the JavaScript relational order on strings. -/
def strLtChars : List Char → List Char → Bool
  | [], [] => false
  | [], _ :: _ => true
  | _ :: _, [] => false
  | a :: as, b :: bs =>
    if a.toNat < b.toNat then true
    else if b.toNat < a.toNat then false
    else strLtChars as bs

/-- The JavaScript strict order on strings. -/
def strLt (a b : String) : Bool := strLtChars a.data b.data

/-- The JavaScript non-strict order on strings. -/
def strLe (a b : String) : Bool := !(strLt b a)

namespace CVUpload

/-- A browser File object, restricted to the fields the component reads. -/
structure File where
  name : String
  type : String
  size : ℕ
deriving DecidableEq, Repr

/-- allowedTypes from the CVUpload component. -/
def allowedTypes : List String :=
  ["application/pdf", "application/msword",
   "application/vnd.openxmlformats-officedocument.wordprocessingml.document"]

/-- maxFileSize from the CVUpload component: 10 * 1024 * 1024 bytes. -/
def maxFileSize : ℕ := 10 * 1024 * 1024

/-- The component state touched by handleFileSelect and handleUpload. -/
structure State where
  selectedFile : Option File
  uploading : Bool
  uploadProgress : ℕ
  error : String
  success : String
deriving DecidableEq, Repr

/-- handleFileSelect from the CVUpload component: clears messages, then
validates the chosen file against allowedTypes and maxFileSize; on a
violation it records a validation message and clears the selection. -/
def handleFileSelect (file : Option File) (s : State) : State :=
  let s0 : State := { s with error := "", success := "" }
  match file with
  | none => { s0 with selectedFile := none }
  | some f =>
    if f.type ∈ allowedTypes then
      if f.size > maxFileSize then
        { s0 with error := "File size must be less than 10MB",
                  selectedFile := none }
      else
        { s0 with selectedFile := some f }
    else
      { s0 with error := "Please select a PDF, DOC, or DOCX file",
                selectedFile := none }

/-- handleUpload from the CVUpload component, up to its first suspension
point: with no selected file it only sets an error; otherwise it enters
the uploading state and issues the upload request, reported here as the
file passed to candidateApi.uploadCV. -/
def handleUpload (s : State) : State × Option File :=
  match s.selectedFile with
  | none => ({ s with error := "Please select a file to upload" }, none)
  | some f =>
    ({ s with uploading := true, uploadProgress := 0,
              error := "", success := "" }, some f)

end CVUpload

namespace SearchInterface

/-- The searchData state of the SearchInterface component: a SearchRequest
with the three filter keys the form renders. -/
structure SearchData where
  requirements : String
  experience_level : Option String
  location : Option String
  skills : Option String
  limit : ℕ
deriving DecidableEq, Repr

/-- The initial searchData passed to useState: empty requirements, empty
filters, limit 10. -/
def initialSearchData : SearchData :=
  { requirements := "", experience_level := none, location := none,
    skills := none, limit := 10 }

/-- The component state. -/
structure State where
  searchData : SearchData
  searching : Bool
  error : String
  showAdvanced : Bool
deriving DecidableEq, Repr

/-- Initial component state from the useState calls. -/
def initialState : State :=
  { searchData := initialSearchData, searching := false, error := "",
    showAdvanced := false }

/-- The values offered by the Number of Results select element. -/
def limitOptions : List ℕ := [3, 5, 10, 15, 20, 25, 30, 40, 50]

/-- handleRequirementsChange: store the text and clear the error. -/
def handleRequirementsChange (t : String) (s : State) : State :=
  { s with searchData := { s.searchData with requirements := t }, error := "" }

/-- The filter keys the form passes to handleFilterChange. -/
inductive FilterKey where
  | experience_level
  | location
  | skills
deriving DecidableEq, Repr

/-- handleFilterChange: `value or undefined` turns the empty string into
an absent filter. -/
def handleFilterChange (k : FilterKey) (v : String) (s : State) : State :=
  let val : Option String := if v = "" then none else some v
  match k with
  | .experience_level =>
    { s with searchData := { s.searchData with experience_level := val } }
  | .location => { s with searchData := { s.searchData with location := val } }
  | .skills => { s with searchData := { s.searchData with skills := val } }

/-- handleLimitChange: parseInt of the selected option value. -/
def handleLimitChange (v : ℕ) (s : State) : State :=
  { s with searchData := { s.searchData with limit := v } }

/-- handleSearch, up to its first suspension point: empty-after-trim
requirements set an error and stop; otherwise the component enters the
searching state and posts searchData to the search endpoint (the issued
request is returned as the second component). -/
def handleSearch (s : State) : State × Option SearchData :=
  if jsTrim s.searchData.requirements = "" then
    ({ s with error := "Please enter job requirements" }, none)
  else
    ({ s with searching := true, error := "" }, some s.searchData)

/-- The states the component can reach: the initial state, followed by any
interleaving of its event handlers. Limit values come from the rendered
option list; the searchSettled step covers the asynchronous catch and
finally blocks of handleSearch, which only touch searching and error. -/
inductive Reachable : State → Prop where
  | init : Reachable initialState
  | requirementsChange (t : String) (s : State) :
      Reachable s → Reachable (handleRequirementsChange t s)
  | filterChange (k : FilterKey) (v : String) (s : State) :
      Reachable s → Reachable (handleFilterChange k v s)
  | limitChange (v : ℕ) (s : State) (hv : v ∈ limitOptions) :
      Reachable s → Reachable (handleLimitChange v s)
  | searchStep (s : State) : Reachable s → Reachable (handleSearch s).1
  | searchSettled (b : Bool) (e : String) (s : State) :
      Reachable s → Reachable { s with searching := b, error := e }
  | toggleAdvanced (s : State) :
      Reachable s → Reachable { s with showAdvanced := !s.showAdvanced }

end SearchInterface

namespace SearchResults

/-- The sortBy state values. -/
inductive SortBy where
  | similarity
  | experience
deriving DecidableEq, Repr

/-- The sortOrder state values. -/
inductive SortOrder where
  | asc
  | desc
deriving DecidableEq, Repr

/-- The experienceLevels array in the sort comparator. -/
def experienceLevels : List String := ["entry", "mid", "senior", "lead"]

/-- Array.prototype.indexOf: index of the first occurrence, -1 if absent. -/
def indexOfJs (l : List String) (v : String) : Int :=
  if v ∈ l then (l.indexOf v : Int) else -1

/-- The sort key the comparator subtracts: the similarity score, or the
index of the experience level (an absent level reads as the empty string,
which indexOf sends to -1). -/
def sortKey (sb : SortBy) (r : SearchResult) : ℚ :=
  match sb with
  | .similarity => r.similarity_score
  | .experience => (indexOfJs experienceLevels (r.experience_level.getD "") : ℚ)

/-- The comparison value computed in the sort callback. -/
def comparison (sb : SortBy) (a b : SearchResult) : ℚ :=
  sortKey sb a - sortKey sb b

/-- The value the sort callback returns: comparison, negated when the
order is descending. -/
def cmpValue (sb : SortBy) (so : SortOrder) (a b : SearchResult) : ℚ :=
  match so with
  | .asc => comparison sb a b
  | .desc => -(comparison sb a b)

/-- The before-or-equal relation induced by the comparator.
Array.prototype.sort is stable and sorts ascending by the callback value,
so its output is the stable sort by this relation. -/
def beforeRel (sb : SortBy) (so : SortOrder) (a b : SearchResult) : Prop :=
  cmpValue sb so a b ≤ 0

instance (sb : SortBy) (so : SortOrder) : DecidableRel (beforeRel sb so) :=
  fun a b => inferInstanceAs (Decidable (cmpValue sb so a b ≤ 0))

instance (sb : SortBy) (so : SortOrder) : IsTotal SearchResult (beforeRel sb so) where
  total a b := by
    cases so with
    | asc =>
      rcases le_total (sortKey sb a) (sortKey sb b) with h | h
      · exact Or.inl (by simp only [beforeRel, cmpValue, comparison]; linarith)
      · exact Or.inr (by simp only [beforeRel, cmpValue, comparison]; linarith)
    | desc =>
      rcases le_total (sortKey sb a) (sortKey sb b) with h | h
      · exact Or.inr (by simp only [beforeRel, cmpValue, comparison]; linarith)
      · exact Or.inl (by simp only [beforeRel, cmpValue, comparison]; linarith)

instance (sb : SortBy) (so : SortOrder) : IsTrans SearchResult (beforeRel sb so) where
  trans a b c hab hbc := by
    cases so <;>
      simp only [beforeRel, cmpValue, comparison] at hab hbc ⊢ <;> linarith

/-- The filter callback inside filteredAndSortedResults: drop a result
whose similarity score is below the slider threshold divided by 100, and,
when the experience filter is a non-empty string, drop a result whose
experience level differs from it. -/
def keepResult (minSimilarity : ℤ) (experienceFilter : String)
    (r : SearchResult) : Bool :=
  if r.similarity_score < (minSimilarity : ℚ) / 100 then false
  else if experienceFilter ≠ "" ∧ r.experience_level ≠ some experienceFilter
    then false
  else true

/-- filteredAndSortedResults from the SearchResults component: filter by
the minimum-similarity slider and the experience filter, then sort with
the comparator. The stable JavaScript sort is modelled as the stable
insertion sort over the induced before-or-equal relation. -/
def filteredAndSortedResults (results : List SearchResult) (sb : SortBy)
    (so : SortOrder) (minSimilarity : ℤ) (experienceFilter : String) :
    List SearchResult :=
  List.insertionSort (beforeRel sb so)
    (results.filter (keepResult minSimilarity experienceFilter))

/-- The cvModal state of the component. -/
structure CVModalState where
  isOpen : Bool
  candidateId : String
  candidateName : String
  cvContent : String
  loading : Bool
  error : String
deriving DecidableEq, Repr

/-- The closed modal, used by the initial state and closeModal. -/
def closedModal : CVModalState :=
  { isOpen := false, candidateId := "", candidateName := "",
    cvContent := "", loading := false, error := "" }

/-- The component state. -/
structure State where
  sortBy : SortBy
  sortOrder : SortOrder
  minSimilarity : ℤ
  experienceFilter : String
  cvModal : CVModalState
deriving DecidableEq, Repr

/-- Initial component state from the useState calls: sort by similarity
descending, threshold 0, no experience filter, modal closed. -/
def initialState : State :=
  { sortBy := .similarity, sortOrder := .desc, minSimilarity := 0,
    experienceFilter := "", cvModal := closedModal }

/-- JavaScript truthiness of an optional string field. -/
def truthy (o : Option String) : Bool :=
  match o with
  | some s => s ≠ ""
  | none => false

/-- The candidate name shown in the modal header. -/
def displayName (r : SearchResult) : String :=
  if truthy r.first_name && truthy r.last_name then
    r.first_name.getD "" ++ " " ++ r.last_name.getD ""
  else
    "Candidate " ++ r.candidate_id.take 8

/-- The list the component renders with the controls at their initial
values: sort by similarity descending, threshold 0, no experience filter. -/
def displayedResults (results : List SearchResult) : List SearchResult :=
  filteredAndSortedResults results initialState.sortBy initialState.sortOrder
    initialState.minSimilarity initialState.experienceFilter

/-- The user events the component handles. -/
inductive Event where
  | setSortBy (v : SortBy)
  | setSortOrder (v : SortOrder)
  | setMinSimilarity (v : ℤ)
  | setExperienceFilter (v : String)
  | viewDetails (r : SearchResult)
  | cvLoaded (content : String)
  | cvLoadFailed (msg : String)
  | closeModal
deriving DecidableEq, Repr

/-- The API requests the component can issue. -/
inductive ApiCall where
  | getCandidateCV (candidateId : String)
deriving DecidableEq, Repr

/-- One step of the component: the new state, plus the API call issued by
the step, if any. viewDetails is handleViewDetails up to its suspension
point; cvLoaded and cvLoadFailed are its resumed then and catch branches. -/
def step (s : State) (e : Event) : State × Option ApiCall :=
  match e with
  | .setSortBy v => ({ s with sortBy := v }, none)
  | .setSortOrder v => ({ s with sortOrder := v }, none)
  | .setMinSimilarity v => ({ s with minSimilarity := v }, none)
  | .setExperienceFilter v => ({ s with experienceFilter := v }, none)
  | .viewDetails r =>
    ({ s with cvModal :=
        { isOpen := true, candidateId := r.candidate_id,
          candidateName := displayName r, cvContent := "", loading := true,
          error := "" } },
      some (.getCandidateCV r.candidate_id))
  | .cvLoaded content =>
    ({ s with cvModal :=
        { s.cvModal with cvContent := content, loading := false } }, none)
  | .cvLoadFailed msg =>
    ({ s with cvModal :=
        { s.cvModal with loading := false, error := msg } }, none)
  | .closeModal => ({ s with cvModal := closedModal }, none)

end SearchResults

namespace CandidateDashboard

/-- getStatusColor from the CandidateDashboard component: the switch falls
through from the pending case to the default, so pending and every
unrecognised status share gray. -/
def getStatusColor (status : String) : String :=
  if status = "completed" then "green"
  else if status = "processing" then "orange"
  else if status = "failed" then "red"
  else "gray"

/-- getStatusText from the CandidateDashboard component. -/
def getStatusText (status : String) : String :=
  if status = "completed" then "CV Processed Successfully"
  else if status = "processing" then "Processing CV..."
  else if status = "failed" then "Processing Failed"
  else "No CV Uploaded"

/-- The status string the dashboard renders: the profile status when it is
truthy, the fallback none otherwise. -/
def displayedStatus (status : Option String) : String :=
  match status with
  | some s => if s = "" then "none" else s
  | none => "none"

end CandidateDashboard

namespace CandidateLogin

/-- The stored authentication state: the access token in localStorage and
the user held by the auth context. -/
structure AuthStore where
  access_token : Option String
  user : Option User
deriving DecidableEq, Repr

/-- handleSubmit from the CandidateLogin component, resumed after the
login response arrives: a response whose user_role is not candidate sets
the error and returns before the token write and the login call;
otherwise the token is stored and the context logs in with the fetched
user. Returns the new store and the error message. -/
def handleSubmit (resp : AuthResponse) (fetchedUser : User)
    (store : AuthStore) : AuthStore × String :=
  if resp.user_role ≠ Role.candidate then
    (store, "Invalid credentials for candidate login")
  else
    ({ access_token := some resp.access_token, user := some fetchedUser }, "")

end CandidateLogin

/-- The loading and error state shared by the two registration forms. -/
structure RegisterUIState where
  loading : Bool
  error : String
deriving DecidableEq, Repr

namespace CandidateRegister

/-- The formData state of the CandidateRegister component. -/
structure FormData where
  email : String
  password : String
  confirmPassword : String
  first_name : String
  last_name : String
deriving DecidableEq, Repr

/-- The payload posted to the candidate registration endpoint. -/
structure RegisterRequest where
  email : String
  password : String
  first_name : String
  last_name : String
deriving DecidableEq, Repr

/-- handleSubmit from the CandidateRegister component, up to its first
suspension point: password mismatch, then short password, each set an
error and stop; otherwise the component enters the loading state and
posts the registration request. -/
def handleSubmit (d : FormData) (s : RegisterUIState) :
    RegisterUIState × Option RegisterRequest :=
  if d.password ≠ d.confirmPassword then
    ({ s with error := "Passwords do not match" }, none)
  else if d.password.length < 8 then
    ({ s with error := "Password must be at least 8 characters long" }, none)
  else
    ({ loading := true, error := "" },
      some { email := d.email, password := d.password,
             first_name := d.first_name, last_name := d.last_name })

end CandidateRegister

namespace RecruiterRegister

/-- The formData state of the RecruiterRegister component. -/
structure FormData where
  email : String
  password : String
  confirmPassword : String
  company_name : String
  job_title : String
deriving DecidableEq, Repr

/-- The payload posted to the recruiter registration endpoint. -/
structure RegisterRequest where
  email : String
  password : String
  company_name : String
  job_title : String
deriving DecidableEq, Repr

/-- handleSubmit from the RecruiterRegister component, up to its first
suspension point: the same two guards as the candidate form, then the
recruiter registration request. -/
def handleSubmit (d : FormData) (s : RegisterUIState) :
    RegisterUIState × Option RegisterRequest :=
  if d.password ≠ d.confirmPassword then
    ({ s with error := "Passwords do not match" }, none)
  else if d.password.length < 8 then
    ({ s with error := "Password must be at least 8 characters long" }, none)
  else
    ({ loading := true, error := "" },
      some { email := d.email, password := d.password,
             company_name := d.company_name, job_title := d.job_title })

end RecruiterRegister

namespace SearchOrchestrator

/-- Modelled from the spec: a candidate profile row as read by the backend
SearchOrchestrator, whose code (the FastAPI backend) is not under src. -/
structure ProfileRow where
  id : String
  first_name : String
  last_name : String
  email : String
  cv_processing_status : String
deriving DecidableEq, Repr

/-- Modelled from the spec: one (key, score) pair returned by the vector
index query boundary. -/
structure IndexHit where
  key : String
  score : ℚ
deriving DecidableEq, Repr

/-- Modelled from the spec: a SearchHit of the ranked list,
(candidate_id, similarity_score). -/
structure SearchHit where
  candidate_id : String
  similarity_score : ℚ
deriving DecidableEq, Repr

/-- Modelled from the spec: resolve the owning candidate of a returned
(vector_key, score) pair via the profile store; a missing profile or one
whose cv_processing_status is not completed drops the hit silently. -/
def resolveHit (profileLookup : String → Option ProfileRow) (h : IndexHit) :
    Option SearchHit :=
  match profileLookup h.key with
  | none => none
  | some p =>
    if p.cv_processing_status = "completed" then
      some { candidate_id := p.id, similarity_score := h.score }
    else none

/-- Modelled from the spec: the ranking order over surviving hits, score
descending with ties broken by ascending candidate id. -/
def hitRel (a b : SearchHit) : Prop :=
  b.similarity_score < a.similarity_score ∨
    (a.similarity_score = b.similarity_score ∧
      strLe a.candidate_id b.candidate_id = true)

instance : DecidableRel hitRel := fun _ _ =>
  inferInstanceAs (Decidable (_ ∨ _))

/-- Modelled from the spec: clamp the requested limit to the bounded
range 1 to 50. -/
def clampLimit (limit : ℕ) : ℕ := min (max limit 1) 50

/-- Modelled from the spec: the backend search orchestration, absent from
src. Reject empty requirements; take the ranked (key, score) pairs the
vector index returned for the embedded query; resolve each hit against
the profile store, dropping misses; re-rank by score descending with ties
broken by ascending candidate id; truncate to the clamped limit after
filtering. -/
def search (profileLookup : String → Option ProfileRow)
    (requirements : String) (hits : List IndexHit) (limit : ℕ) :
    Option (List SearchHit) :=
  if jsTrim requirements = "" then none
  else
    some
      (((hits.filterMap (resolveHit profileLookup)).insertionSort hitRel).take
        (clampLimit limit))

end SearchOrchestrator

/-! Concrete values used to instantiate the theorems below. -/

namespace Fixtures

/-- A file with a MIME type outside the allow-list. -/
def zipFile : CVUpload.File :=
  { name := "cv.zip", type := "application/zip", size := 100 }

/-- The initial CVUpload component state. -/
def uploadInit : CVUpload.State :=
  { selectedFile := none, uploading := false, uploadProgress := 0,
    error := "", success := "" }

/-- A search state whose requirements are only whitespace. -/
def blankSearchState : SearchInterface.State :=
  { searchData := { requirements := "   ",
                    experience_level := none,
                    location := none,
                    skills := none,
                    limit := 10 },
    searching := false, error := "", showAdvanced := false }

/-- Two search results with equal scores, listed with the larger id first. -/
def tieB : SearchResult := { candidate_id := "b", similarity_score := 1/2 }

/-- The second of the two tied results. -/
def tieA : SearchResult := { candidate_id := "a", similarity_score := 1/2 }

/-- A recruiter-role login response. -/
def recruiterResp : AuthResponse :=
  { access_token := "tok", token_type := "bearer", expires_in := 3600,
    user_id := "u1", user_role := Role.recruiter }

/-- A recruiter user record. -/
def recruiterUser : User :=
  { id := "u1", email := "r@x", role := Role.recruiter,
    created_at := "2024", last_login_at := none, is_active := true }

/-- An empty authentication store. -/
def emptyStore : CandidateLogin.AuthStore :=
  { access_token := none, user := none }

/-- A candidate registration form whose confirmation differs. -/
def mismatchForm : CandidateRegister.FormData :=
  { email := "a@b", password := "longenough1",
    confirmPassword := "longenough2", first_name := "A", last_name := "B" }

/-- A recruiter registration form with a matching long password. -/
def recruiterForm : RecruiterRegister.FormData :=
  { email := "a@b", password := "longenough1",
    confirmPassword := "longenough1", company_name := "C", job_title := "T" }

/-- A clean registration form UI state. -/
def regClean : RegisterUIState := { loading := false, error := "" }

/-- A profile store holding one completed candidate. -/
def oneProfile (k : String) : Option SearchOrchestrator.ProfileRow :=
  if k = "c1" then
    some { id := "c1", first_name := "A", last_name := "B", email := "a@b",
           cv_processing_status := "completed" }
  else none

/-- Two index hits, one resolvable, one orphaned. -/
def twoHits : List SearchOrchestrator.IndexHit :=
  [{ key := "c1", score := 9/10 }, { key := "gone", score := 1/2 }]

end Fixtures

/-! Claim theorems. -/

open List

/-- C1: a CV file is accepted by handleFileSelect iff its MIME type is on
the allow-list and its size is at most 10 MiB; a violating file yields a
validation message, a cleared selection, and no upload request from a
subsequent handleUpload. -/
theorem c1_cv_upload_validation (f : CVUpload.File) (s : CVUpload.State) :
    ((CVUpload.handleFileSelect (some f) s).selectedFile = some f ↔
      f.type ∈ CVUpload.allowedTypes ∧ f.size ≤ CVUpload.maxFileSize) ∧
    (¬ (f.type ∈ CVUpload.allowedTypes ∧ f.size ≤ CVUpload.maxFileSize) →
      (CVUpload.handleFileSelect (some f) s).selectedFile = none ∧
      (CVUpload.handleFileSelect (some f) s).error ≠ "" ∧
      (CVUpload.handleUpload (CVUpload.handleFileSelect (some f) s)).2 =
        none) := by
  by_cases ht : f.type ∈ CVUpload.allowedTypes
  · by_cases hs : f.size ≤ CVUpload.maxFileSize
    · simp [CVUpload.handleFileSelect, ht, hs, Nat.not_lt.mpr hs]
    · simp [CVUpload.handleFileSelect, CVUpload.handleUpload, ht, hs,
        Nat.lt_of_not_le hs]
  · simp [CVUpload.handleFileSelect, CVUpload.handleUpload, ht]

/-- C1 witness: a non-allow-listed MIME type is rejected with an error, a
cleared selection and no upload request. -/
theorem c1_cv_upload_validation_witness :
    ¬ (Fixtures.zipFile.type ∈ CVUpload.allowedTypes ∧
        Fixtures.zipFile.size ≤ CVUpload.maxFileSize) ∧
    ((CVUpload.handleFileSelect (some Fixtures.zipFile)
        Fixtures.uploadInit).selectedFile = none ∧
      (CVUpload.handleFileSelect (some Fixtures.zipFile)
        Fixtures.uploadInit).error ≠ "" ∧
      (CVUpload.handleUpload (CVUpload.handleFileSelect
        (some Fixtures.zipFile) Fixtures.uploadInit)).2 = none) :=
  ⟨by decide,
    (c1_cv_upload_validation Fixtures.zipFile Fixtures.uploadInit).2
      (by decide)⟩

/-- C3 counterexample: the Candidate type of src/frontend/src/types/index.ts
does not admit the values none and processing claimed for it. -/
theorem c3_five_values_counterexample :
    "none" ∉ candidateStatusValues ∧ "processing" ∉ candidateStatusValues := by
  decide

/-- C3 (amended): the Candidate type admits exactly the three values
pending, completed and failed; the dashboard renders the optional status
with the fallback none and its display maps distinguish the five display
statuses, sending completed to green, processing to orange, failed to red,
and pending and none both to gray. -/
theorem c3_status_domain :
    ("pending" ∈ candidateStatusValues ∧
      "completed" ∈ candidateStatusValues ∧
      "failed" ∈ candidateStatusValues ∧
      "none" ∉ candidateStatusValues ∧
      "processing" ∉ candidateStatusValues ∧
      candidateStatusValues.length = 3) ∧
    (CandidateDashboard.displayedStatus none = "none" ∧
      CandidateDashboard.displayedStatus (some "pending") = "pending" ∧
      CandidateDashboard.displayedStatus (some "completed") = "completed" ∧
      CandidateDashboard.displayedStatus (some "failed") = "failed") ∧
    (CandidateDashboard.getStatusColor "completed" = "green" ∧
      CandidateDashboard.getStatusColor "processing" = "orange" ∧
      CandidateDashboard.getStatusColor "failed" = "red" ∧
      CandidateDashboard.getStatusColor "pending" = "gray" ∧
      CandidateDashboard.getStatusColor "none" = "gray") ∧
    (CandidateDashboard.getStatusText "completed" = "CV Processed Successfully" ∧
      CandidateDashboard.getStatusText "processing" = "Processing CV..." ∧
      CandidateDashboard.getStatusText "failed" = "Processing Failed" ∧
      CandidateDashboard.getStatusText "pending" = "No CV Uploaded" ∧
      CandidateDashboard.getStatusText "none" = "No CV Uploaded") := by
  decide

/-- C4: a search submission whose requirements are empty after trimming
sets the error message, issues no search request, and changes nothing
else. -/
theorem c4_empty_requirements (s : SearchInterface.State)
    (h : jsTrim s.searchData.requirements = "") :
    SearchInterface.handleSearch s =
      ({ s with error := "Please enter job requirements" }, none) := by
  simp [SearchInterface.handleSearch, h]

/-- C4 witness: a whitespace-only requirements text is rejected. -/
theorem c4_empty_requirements_witness :
    SearchInterface.handleSearch Fixtures.blankSearchState =
      ({ Fixtures.blankSearchState with
          error := "Please enter job requirements" }, none) :=
  c4_empty_requirements Fixtures.blankSearchState (by decide)

/-- C5: the initial search state has limit 10; every selectable limit
value lies in the range 1 to 50; and every reachable interface state
keeps its limit in that range, so every constructed request does too. -/
theorem c5_limit_bound :
    SearchInterface.initialSearchData.limit = 10 ∧
    (∀ v ∈ SearchInterface.limitOptions, 1 ≤ v ∧ v ≤ 50) ∧
    (∀ s, SearchInterface.Reachable s →
      1 ≤ s.searchData.limit ∧ s.searchData.limit ≤ 50) := by
  refine ⟨rfl, by decide, ?_⟩
  intro s hs
  induction hs with
  | init => decide
  | requirementsChange t s h ih =>
    simpa [SearchInterface.handleRequirementsChange] using ih
  | filterChange k v s h ih =>
    cases k <;> simpa [SearchInterface.handleFilterChange] using ih
  | limitChange v s hv h ih =>
    simp only [SearchInterface.handleLimitChange]
    simp [SearchInterface.limitOptions] at hv
    rcases hv with rfl | rfl | rfl | rfl | rfl | rfl | rfl | rfl | rfl <;>
      decide
  | searchStep s h ih =>
    simp only [SearchInterface.handleSearch]
    split_ifs <;> simpa using ih
  | searchSettled b e s h ih => simpa using ih
  | toggleAdvanced s h ih => simpa using ih

/-- C5 witness: after selecting the limit option 3 from the initial
state, the limit remains within 1 to 50. -/
theorem c5_limit_bound_witness :
    1 ≤ (SearchInterface.handleLimitChange 3
        SearchInterface.initialState).searchData.limit ∧
    (SearchInterface.handleLimitChange 3
        SearchInterface.initialState).searchData.limit ≤ 50 :=
  c5_limit_bound.2.2 _
    (SearchInterface.Reachable.limitChange 3 SearchInterface.initialState
      (by decide) SearchInterface.Reachable.init)

/-- C8: a login response whose role is not candidate makes handleSubmit
set the error and return with the stored authentication state unchanged,
before the token write and the login call. -/
theorem c8_candidate_login_guard (resp : AuthResponse) (u : User)
    (store : CandidateLogin.AuthStore)
    (h : resp.user_role ≠ Role.candidate) :
    CandidateLogin.handleSubmit resp u store =
      (store, "Invalid credentials for candidate login") := by
  simp [CandidateLogin.handleSubmit, h]

/-- C8 witness: a recruiter-role login response leaves an empty store
unchanged and sets the error. -/
theorem c8_candidate_login_guard_witness :
    CandidateLogin.handleSubmit Fixtures.recruiterResp
        Fixtures.recruiterUser Fixtures.emptyStore =
      (Fixtures.emptyStore, "Invalid credentials for candidate login") :=
  c8_candidate_login_guard Fixtures.recruiterResp Fixtures.recruiterUser
    Fixtures.emptyStore (by decide)

/-- Helper: the candidate registration guard rejects a violating form with
an error message and no request. -/
theorem candidateSubmit_violation (d : CandidateRegister.FormData)
    (s : RegisterUIState)
    (h : ¬ (d.password = d.confirmPassword ∧ 8 ≤ d.password.length)) :
    ∃ msg, msg ≠ "" ∧
      CandidateRegister.handleSubmit d s = ({ s with error := msg }, none) := by
  by_cases h1 : d.password = d.confirmPassword
  · have h2 : d.password.length < 8 := by
      rcases Nat.lt_or_ge d.password.length 8 with hl | hl
      · exact hl
      · exact absurd ⟨h1, hl⟩ h
    refine ⟨"Password must be at least 8 characters long", by decide, ?_⟩
    simp only [CandidateRegister.handleSubmit]
    rw [if_neg (by simp [h1]), if_pos h2]
  · refine ⟨"Passwords do not match", by decide, ?_⟩
    simp only [CandidateRegister.handleSubmit]
    rw [if_pos h1]

/-- Helper: a valid candidate form posts the registration request. -/
theorem candidateSubmit_ok (d : CandidateRegister.FormData)
    (s : RegisterUIState) (h1 : d.password = d.confirmPassword)
    (h2 : 8 ≤ d.password.length) :
    (CandidateRegister.handleSubmit d s).2 ≠ none := by
  simp only [CandidateRegister.handleSubmit]
  rw [if_neg (by simp [h1]), if_neg (Nat.not_lt.mpr h2)]
  simp

/-- Helper: the recruiter registration guard rejects a violating form with
an error message and no request. -/
theorem recruiterSubmit_violation (d : RecruiterRegister.FormData)
    (s : RegisterUIState)
    (h : ¬ (d.password = d.confirmPassword ∧ 8 ≤ d.password.length)) :
    ∃ msg, msg ≠ "" ∧
      RecruiterRegister.handleSubmit d s = ({ s with error := msg }, none) := by
  by_cases h1 : d.password = d.confirmPassword
  · have h2 : d.password.length < 8 := by
      rcases Nat.lt_or_ge d.password.length 8 with hl | hl
      · exact hl
      · exact absurd ⟨h1, hl⟩ h
    refine ⟨"Password must be at least 8 characters long", by decide, ?_⟩
    simp only [RecruiterRegister.handleSubmit]
    rw [if_neg (by simp [h1]), if_pos h2]
  · refine ⟨"Passwords do not match", by decide, ?_⟩
    simp only [RecruiterRegister.handleSubmit]
    rw [if_pos h1]

/-- Helper: a valid recruiter form posts the registration request. -/
theorem recruiterSubmit_ok (d : RecruiterRegister.FormData)
    (s : RegisterUIState) (h1 : d.password = d.confirmPassword)
    (h2 : 8 ≤ d.password.length) :
    (RecruiterRegister.handleSubmit d s).2 ≠ none := by
  simp only [RecruiterRegister.handleSubmit]
  rw [if_neg (by simp [h1]), if_neg (Nat.not_lt.mpr h2)]
  simp

/-- C9: in both registration forms the request is posted iff the password
equals its confirmation and has length at least 8; any violation sets an
error message, posts nothing, and leaves the rest of the state unchanged. -/
theorem c9_register_guards (dc : CandidateRegister.FormData)
    (dr : RecruiterRegister.FormData) (s t : RegisterUIState) :
    (((CandidateRegister.handleSubmit dc s).2 ≠ none) ↔
      (dc.password = dc.confirmPassword ∧ 8 ≤ dc.password.length)) ∧
    (¬ (dc.password = dc.confirmPassword ∧ 8 ≤ dc.password.length) →
      ∃ msg, msg ≠ "" ∧
        CandidateRegister.handleSubmit dc s = ({ s with error := msg }, none)) ∧
    (((RecruiterRegister.handleSubmit dr t).2 ≠ none) ↔
      (dr.password = dr.confirmPassword ∧ 8 ≤ dr.password.length)) ∧
    (¬ (dr.password = dr.confirmPassword ∧ 8 ≤ dr.password.length) →
      ∃ msg, msg ≠ "" ∧
        RecruiterRegister.handleSubmit dr t =
          ({ t with error := msg }, none)) := by
  refine ⟨⟨?_, fun h => candidateSubmit_ok dc s h.1 h.2⟩,
    candidateSubmit_violation dc s,
    ⟨?_, fun h => recruiterSubmit_ok dr t h.1 h.2⟩,
    recruiterSubmit_violation dr t⟩
  · intro hx
    by_contra hv
    obtain ⟨msg, _, heq⟩ := candidateSubmit_violation dc s hv
    rw [heq] at hx
    exact hx rfl
  · intro hx
    by_contra hv
    obtain ⟨msg, _, heq⟩ := recruiterSubmit_violation dr t hv
    rw [heq] at hx
    exact hx rfl

/-- C2 counterexample: two results with equal scores, listed with the
larger candidate id first, are displayed in input order by the default
controls, not with ids ascending, so the claimed tie-break does not hold
and the order is not a function of the input set. -/
theorem c2_tie_order_counterexample :
    ¬ List.Pairwise
        (fun x y : SearchResult =>
          y.similarity_score < x.similarity_score ∨
            (x.similarity_score = y.similarity_score ∧
              strLt x.candidate_id y.candidate_id = true))
        (SearchResults.displayedResults [Fixtures.tieB, Fixtures.tieA]) := by
  have hout : SearchResults.displayedResults [Fixtures.tieB, Fixtures.tieA] =
      [Fixtures.tieB, Fixtures.tieA] := by
    norm_num [SearchResults.displayedResults,
      SearchResults.filteredAndSortedResults, SearchResults.keepResult,
      SearchResults.beforeRel, SearchResults.cmpValue,
      SearchResults.comparison, SearchResults.sortKey,
      SearchResults.initialState, Fixtures.tieB, Fixtures.tieA,
      List.insertionSort, List.orderedInsert, List.filter]
  rw [hout]
  intro h
  have h1 := (List.pairwise_cons.mp h).1 Fixtures.tieA (by simp)
  rcases h1 with h1 | ⟨h1, h2⟩
  · exact absurd h1 (by norm_num [Fixtures.tieA, Fixtures.tieB])
  · exact absurd h2 (by decide)

/-- C2 (amended): with the default controls the displayed list is sorted
by similarity score descending and is a permutation of the filtered
input; ties between equal scores keep their input order (the sort is
stable), so the output is a deterministic function of the input list
rather than of the input set. -/
theorem c2_display_order (results : List SearchResult) (a b : SearchResult)
    (hab : a.similarity_score = b.similarity_score)
    (hsub : [a, b] <+ results.filter (SearchResults.keepResult 0 "")) :
    List.Sorted
        (fun x y : SearchResult =>
          y.similarity_score ≤ x.similarity_score)
        (SearchResults.displayedResults results) ∧
    SearchResults.displayedResults results ~
      results.filter (SearchResults.keepResult 0 "") ∧
    [a, b] <+ SearchResults.displayedResults results := by
  have hrel : ∀ x y : SearchResult,
      SearchResults.beforeRel SearchResults.SortBy.similarity
          SearchResults.SortOrder.desc x y ↔
        y.similarity_score ≤ x.similarity_score := by
    intro x y
    simp only [SearchResults.beforeRel, SearchResults.cmpValue,
      SearchResults.comparison, SearchResults.sortKey]
    constructor <;> intro h <;> linarith
  have hd : SearchResults.displayedResults results =
      List.insertionSort
        (SearchResults.beforeRel SearchResults.SortBy.similarity
          SearchResults.SortOrder.desc)
        (results.filter (SearchResults.keepResult 0 "")) := rfl
  refine ⟨?_, ?_, ?_⟩
  · rw [hd]
    exact (List.sorted_insertionSort _ _).imp (fun h => (hrel _ _).1 h)
  · rw [hd]
    exact List.perm_insertionSort _ _
  · rw [hd]
    exact List.pair_sublist_insertionSort
      ((hrel a b).2 (le_of_eq hab.symm)) hsub

/-- C2 witness: the two tied results of the counterexample instantiate
the amended statement. -/
theorem c2_display_order_witness :
    List.Sorted
        (fun x y : SearchResult =>
          y.similarity_score ≤ x.similarity_score)
        (SearchResults.displayedResults [Fixtures.tieB, Fixtures.tieA]) ∧
    SearchResults.displayedResults [Fixtures.tieB, Fixtures.tieA] ~
      [Fixtures.tieB, Fixtures.tieA].filter (SearchResults.keepResult 0 "") ∧
    [Fixtures.tieB, Fixtures.tieA] <+
      SearchResults.displayedResults [Fixtures.tieB, Fixtures.tieA] :=
  c2_display_order [Fixtures.tieB, Fixtures.tieA] Fixtures.tieB Fixtures.tieA
    (by norm_num [Fixtures.tieA, Fixtures.tieB])
    (by norm_num [Fixtures.tieA, Fixtures.tieB, SearchResults.keepResult,
          List.filter])

/-- C6: a SearchResult carries exactly the fields candidate id, score,
name parts, email, matched skills and experience level (the field tuple
is injective, so no CV text is carried), and the results component issues
its only CV request, getCandidateCV for the clicked candidate, from the
explicit view-details event alone. -/
theorem c6_privacy_boundary :
    Function.Injective searchResultFields ∧
    ∀ (s : SearchResults.State) (e : SearchResults.Event)
      (c : SearchResults.ApiCall),
      (SearchResults.step s e).2 = some c →
      ∃ r, e = SearchResults.Event.viewDetails r ∧
        c = SearchResults.ApiCall.getCandidateCV r.candidate_id := by
  constructor
  · intro x y h
    cases x
    cases y
    simp only [searchResultFields, Prod.mk.injEq] at h
    simp only [SearchResult.mk.injEq]
    exact h
  · intro s e c h
    cases e with
    | setSortBy v => exact absurd h (by simp [SearchResults.step])
    | setSortOrder v => exact absurd h (by simp [SearchResults.step])
    | setMinSimilarity v => exact absurd h (by simp [SearchResults.step])
    | setExperienceFilter v => exact absurd h (by simp [SearchResults.step])
    | viewDetails r =>
      refine ⟨r, rfl, ?_⟩
      simp only [SearchResults.step] at h
      exact (Option.some.inj h).symm
    | cvLoaded content => exact absurd h (by simp [SearchResults.step])
    | cvLoadFailed msg => exact absurd h (by simp [SearchResults.step])
    | closeModal => exact absurd h (by simp [SearchResults.step])

/-- C6 witness: clicking view details on a concrete result issues exactly
the getCandidateCV call for that candidate. -/
theorem c6_privacy_boundary_witness :
    ∃ r, SearchResults.Event.viewDetails Fixtures.tieA =
        SearchResults.Event.viewDetails r ∧
      SearchResults.ApiCall.getCandidateCV "a" =
        SearchResults.ApiCall.getCandidateCV r.candidate_id :=
  c6_privacy_boundary.2 SearchResults.initialState
    (SearchResults.Event.viewDetails Fixtures.tieA)
    (SearchResults.ApiCall.getCandidateCV "a") rfl

/-- C7: when the vector index returns scores in the unit interval, a
search with a requested limit of at least 1 returns at most that many
hits, each with a similarity score in the unit interval. -/
theorem c7_search_bound
    (profileLookup : String → Option SearchOrchestrator.ProfileRow)
    (requirements : String) (hits : List SearchOrchestrator.IndexHit)
    (limit : ℕ) (out : List SearchOrchestrator.SearchHit)
    (hlim : 1 ≤ limit)
    (hscores : ∀ h ∈ hits, 0 ≤ h.score ∧ h.score ≤ 1)
    (hout : SearchOrchestrator.search profileLookup requirements hits limit =
      some out) :
    out.length ≤ limit ∧
      ∀ h ∈ out, 0 ≤ h.similarity_score ∧ h.similarity_score ≤ 1 := by
  by_cases hreq : jsTrim requirements = ""
  · simp only [SearchOrchestrator.search, if_pos hreq] at hout
    exact absurd hout (by simp)
  · simp only [SearchOrchestrator.search, if_neg hreq] at hout
    have hout2 : out =
        ((hits.filterMap
            (SearchOrchestrator.resolveHit profileLookup)).insertionSort
          SearchOrchestrator.hitRel).take
            (SearchOrchestrator.clampLimit limit) :=
      (Option.some.inj hout).symm
    constructor
    · rw [hout2, List.length_take]
      have hclamp : SearchOrchestrator.clampLimit limit ≤ limit := by
        simp only [SearchOrchestrator.clampLimit, Nat.max_eq_left hlim]
        exact Nat.min_le_left _ _
      exact le_trans (min_le_left _ _) hclamp
    · intro h hmem
      rw [hout2] at hmem
      have hmem2 := List.mem_of_mem_take hmem
      have hmem3 := (List.mem_insertionSort _).1 hmem2
      obtain ⟨hit, hhit, hres⟩ := List.mem_filterMap.mp hmem3
      have hscore : h.similarity_score = hit.score := by
        simp only [SearchOrchestrator.resolveHit] at hres
        cases hpl : profileLookup hit.key with
        | none => simp [hpl] at hres
        | some p =>
          simp only [hpl] at hres
          split_ifs at hres
          rw [← Option.some.inj hres]
      rw [hscore]
      exact hscores hit hhit

/-- C7 witness: a concrete two-hit query with limit 5 returns one
surviving hit with a unit-interval score. -/
theorem c7_search_bound_witness :
    ([({ candidate_id := "c1", similarity_score := 9/10 } :
        SearchOrchestrator.SearchHit)]).length ≤ 5 ∧
    ∀ h ∈ [({ candidate_id := "c1", similarity_score := 9/10 } :
        SearchOrchestrator.SearchHit)],
      0 ≤ h.similarity_score ∧ h.similarity_score ≤ 1 :=
  c7_search_bound Fixtures.oneProfile "python" Fixtures.twoHits 5 _
    (by decide)
    (by
      intro h hh
      simp [Fixtures.twoHits] at hh
      rcases hh with rfl | rfl <;> norm_num)
    (by
      have htrim : jsTrim "python" = "python" := by decide
      norm_num [SearchOrchestrator.search, SearchOrchestrator.resolveHit,
        SearchOrchestrator.hitRel, SearchOrchestrator.clampLimit, htrim,
        Fixtures.oneProfile, Fixtures.twoHits, List.insertionSort,
        List.orderedInsert, List.filterMap]
      exact fun hc => absurd hc (by decide))

/-- C10: the client-side post-filter fabricates nothing: the filtered and
sorted list is a permutation of the subset of the input whose similarity
score is at least the threshold over 100 and whose experience level
matches a non-empty filter, and it is never longer than the input. -/
theorem c10_filter_no_fabrication (results : List SearchResult)
    (sb : SearchResults.SortBy) (so : SearchResults.SortOrder)
    (m : ℤ) (e : String) :
    SearchResults.filteredAndSortedResults results sb so m e ~
      results.filter (SearchResults.keepResult m e) ∧
    (∀ r, r ∈ SearchResults.filteredAndSortedResults results sb so m e ↔
      (r ∈ results ∧ (m : ℚ) / 100 ≤ r.similarity_score ∧
        (e ≠ "" → r.experience_level = some e))) ∧
    (SearchResults.filteredAndSortedResults results sb so m e).length ≤
      results.length := by
  have hperm : SearchResults.filteredAndSortedResults results sb so m e ~
      results.filter (SearchResults.keepResult m e) :=
    List.perm_insertionSort _ _
  have hkeep : ∀ r : SearchResult, SearchResults.keepResult m e r = true ↔
      ((m : ℚ) / 100 ≤ r.similarity_score ∧
        (e ≠ "" → r.experience_level = some e)) := by
    intro r
    simp only [SearchResults.keepResult]
    split_ifs with h1 h2
    · exact iff_of_false (by simp)
        (fun hx => absurd hx.1 (not_le.mpr h1))
    · exact iff_of_false (by simp) (fun hx => h2.2 (hx.2 h2.1))
    · refine iff_of_true rfl ⟨not_lt.mp h1, fun he => ?_⟩
      rcases not_and_or.mp h2 with hc | hc
      · exact absurd he hc
      · exact not_not.mp hc
  refine ⟨hperm, ?_, ?_⟩
  · intro r
    rw [hperm.mem_iff, List.mem_filter, hkeep r]
  · rw [hperm.length_eq]
    exact List.length_filter_le _ _

/-- C10 witness: the permutation property at a concrete one-element list. -/
theorem c10_filter_no_fabrication_witness :
    SearchResults.filteredAndSortedResults [Fixtures.tieB]
        SearchResults.SortBy.similarity SearchResults.SortOrder.desc 0 "" ~
      [Fixtures.tieB].filter (SearchResults.keepResult 0 "") :=
  (c10_filter_no_fabrication [Fixtures.tieB] SearchResults.SortBy.similarity
    SearchResults.SortOrder.desc 0 "").1

/-- C9 witness: a mismatched candidate form posts nothing and only sets an
error message. -/
theorem c9_register_guards_witness :
    ∃ msg, msg ≠ "" ∧
      CandidateRegister.handleSubmit Fixtures.mismatchForm Fixtures.regClean =
        ({ Fixtures.regClean with error := msg }, none) :=
  (c9_register_guards Fixtures.mismatchForm Fixtures.recruiterForm
    Fixtures.regClean Fixtures.regClean).2.1 (by decide)

end SecureHR
